import Mathlib

/-!
Shallow embedding of the pisshoff SSH honeypot's session controller
(`src/server.rs`), its credential acceptance policy
(`Connection::try_login`), the audit record hand-off
(`impl Drop for Connection`) and the top-level shutdown flow
(`src/main.rs`, `run`).

Machine details that do not matter to the verified properties (tracing
spans, the uuid bit pattern, the tokio plumbing) are elided; every branch
and every response made by the handlers is kept.  The audit data model
(`audit.rs`), the shared state (`state.rs`) and the command emulator
(`command.rs`) are not part of the provided sources, so those few
definitions are modelled from the spec, as marked in their doc comments.
-/

namespace Pisshoff

/-- Modelled from the spec: `AuditAction` (§3); `audit.rs` is not among the
provided sources.  A closed sum of the structured actions a connection can
record, each variant immutable once constructed.  Numeric protocol fields
are modelled as `Nat` (they are `u32`/`usize` values merely stored and
serialized, never subjected to arithmetic). -/
inductive AuditLogAction
  | loginAttemptPassword (username password : String)
  | loginAttemptPublicKey (kind fingerprint : String)
  | shellRequested
  | execCommand (args : List String)
  | ptyRequest (term : String) (colWidth rowHeight pixWidth pixHeight : Nat)
      (modes : List (Nat × Nat))
  | x11Request (singleConnection : Bool) (x11AuthProtocol x11AuthCookie : String)
      (x11ScreenNumber : Nat)
  | openX11 (originatorAddress : String) (originatorPort : Nat)
  | openDirectTcpIp (hostToConnect : String) (portToConnect : Nat)
      (originatorAddress : String) (originatorPort : Nat)
  | subsystemRequest (name : String)
  | windowChangeRequest (colWidth rowHeight pixWidth pixHeight : Nat)
  | windowAdjusted (newSize : Nat)
  | signalled (name : String)
  | tcpIpForward (address : String) (port : Nat)
  | cancelTcpIpForward (address : String) (port : Nat)
deriving DecidableEq, Repr

/-- Modelled from the spec: `AuditRecord` (§3); `audit.rs` is not among the
provided sources.  One per connection: a connection identifier (the 128-bit
random uuid, modelled as `Nat`), the optional peer address, the ordered
action list and the ordered environment-variable pairs. -/
structure AuditLog where
  connectionId : Nat
  peerAddress : Option String
  actions : List AuditLogAction
  environmentVariables : List (String × String)
deriving DecidableEq, Repr

/-- Rust `AuditLog::default()`: nil uuid, no peer address, empty sequences.
This is what `std::mem::take` leaves behind in the `Drop` impl. -/
def AuditLog.default : AuditLog :=
  { connectionId := 0, peerAddress := none, actions := [], environmentVariables := [] }

instance : Inhabited AuditLog := ⟨AuditLog.default⟩

/-- Modelled from the spec: appending an action to the record (`push_action`
in `audit.rs`); insertion order is occurrence order (§3). -/
def AuditLog.pushAction (log : AuditLog) (a : AuditLogAction) : AuditLog :=
  { log with actions := log.actions ++ [a] }

/-- Modelled from the spec: the `CredentialStore` (§3, §4.2; `state.rs` is
not among the provided sources): the process-lifetime, monotonically
growing set of previously accepted passwords, modelled as a list. -/
structure State where
  previouslyAcceptedPasswords : List String
deriving DecidableEq, Repr

/-- Modelled from the spec: membership test of the credential store. -/
def State.seen (s : State) (password : String) : Bool :=
  s.previouslyAcceptedPasswords.contains password

/-- Modelled from the spec: insertion into the credential store. -/
def State.storePassword (s : State) (password : String) : State :=
  ⟨password :: s.previouslyAcceptedPasswords⟩

/-- The per-connection handler state (`struct Connection`, `server.rs`):
only the accumulated audit record matters to the verified properties (the
tracing span is elided, and the shared `Server` state is passed
explicitly). -/
structure Connection where
  auditLog : AuditLog
deriving DecidableEq, Repr

instance : Inhabited Connection := ⟨⟨AuditLog.default⟩⟩

/-- Rust `Connection::try_login` (`server.rs` lines 80–109).  `accessProbability`
is `config.access_probability`; `sample` is the value drawn by
`fastrand::f64()`, a uniform draw from the half-open interval [0,1),
modelled as a rational.  Returns the decision, the updated shared state and
the updated connection; the `LoginAttempt` action is pushed on every path,
after the decision is computed. -/
def tryLogin (state : State) (accessProbability sample : ℚ)
    (conn : Connection) (user password : String) :
    Bool × State × Connection :=
  let res :=
    if State.seen state password then
      (true, state)
    else if sample ≤ accessProbability then
      (true, State.storePassword state password)
    else
      (false, state)
  (res.1, res.2,
    { conn with
        auditLog :=
          AuditLog.pushAction conn.auditLog
            (AuditLogAction.loginAttemptPassword user password) })

/-- The authentication outcome handed back to the transport engine
(`thrussh::server::Auth`).  `partialAuth` is `Auth::Partial` (the keyword
prevents reusing the bare name `partial`). -/
inductive Auth
  | accept
  | reject
  | partialAuth (name instructions : String) (prompts : List (String × Bool))
  | unsupportedMethod
deriving DecidableEq, Repr

/-- Rust `KEYBOARD_INTERACTIVE_PROMPT` (`server.rs` line 34). -/
def KEYBOARD_INTERACTIVE_PROMPT : List (String × Bool) := [("Password: ", false)]

/-- Rust `SHELL_PROMPT` (`server.rs` line 36). -/
def SHELL_PROMPT : String := "bash-5.1$ "

/-- The observable responses a handler makes on the session, in order.
`runCommand args` stands for the call `run_command(&args, channel, &mut
session)`: per the spec (§4.5, `command.rs` is not among the provided
sources) it invokes the command emulator and writes its fabricated output
back to the channel.  `replyBool b` is the `finished_bool(b, ..)` reply to
a global request.  `disconnect` is never produced by any handler below:
its absence states that a session stays open. -/
inductive Effect
  | channelSuccess
  | channelFailure
  | dataOut (s : String)
  | runCommand (args : List String)
  | replyBool (b : Bool)
  | disconnect
deriving DecidableEq, Repr

/-- True when the effect list contains an invocation of the command
emulator. -/
def invokesEmulator (effects : List Effect) : Bool :=
  effects.any fun e =>
    match e with
    | Effect.runCommand _ => true
    | _ => false

/-- True when the effect list closes the session. -/
def disconnects (effects : List Effect) : Bool :=
  effects.contains Effect.disconnect

/-- Rust `auth_password` (`server.rs` lines 150–165): delegate to `try_login`;
`Accept` on a true decision, otherwise `Partial` with the fixed
keyboard-interactive prompt. -/
def authPassword (state : State) (accessProbability sample : ℚ)
    (conn : Connection) (user password : String) :
    Auth × State × Connection :=
  let r := tryLogin state accessProbability sample conn user password
  (if r.1 then Auth.accept
   else Auth.partialAuth "" "" KEYBOARD_INTERACTIVE_PROMPT,
   r.2.1, r.2.2)

/-- Rust `auth_keyboard_interactive` (`server.rs` lines 185–218): the body sets
`result = Auth::Reject` unconditionally (the credential-checking version is
commented out); no audit action is pushed and the inputs are unused.  The
`response` argument models `Option<Response>` as the submitted answer
strings. -/
def authKeyboardInteractive (conn : Connection) (_user _submethods : String)
    (_response : Option (List String)) : Auth × Connection :=
  (Auth.reject, conn)

/-- Rust `channel_open_session` (`server.rs` lines 240–248): answer
`channel_success`; no audit action is pushed. -/
def channelOpenSession (conn : Connection) : Connection × List Effect :=
  (conn, [Effect.channelSuccess])

/-- Rust `channel_open_x11` (`server.rs` lines 250–268): push an `OpenX11`
action, answer `channel_failure`. -/
def channelOpenX11 (conn : Connection) (originatorAddress : String)
    (originatorPort : Nat) : Connection × List Effect :=
  ({ conn with
      auditLog :=
        AuditLog.pushAction conn.auditLog
          (AuditLogAction.openX11 originatorAddress originatorPort) },
   [Effect.channelFailure])

/-- Rust `channel_open_direct_tcpip` (`server.rs` lines 270–292): push an
`OpenDirectTcpIp` action, answer `channel_failure`. -/
def channelOpenDirectTcpIp (conn : Connection) (hostToConnect : String)
    (portToConnect : Nat) (originatorAddress : String) (originatorPort : Nat) :
    Connection × List Effect :=
  ({ conn with
      auditLog :=
        AuditLog.pushAction conn.auditLog
          (AuditLogAction.openDirectTcpIp hostToConnect portToConnect
            originatorAddress originatorPort) },
   [Effect.channelFailure])

/-- Rust `pty_request` (`server.rs` lines 353–385): push a `PtyRequest` action
with the terminal parameters and modes, answer `channel_failure`. -/
def ptyRequest (conn : Connection) (term : String)
    (colWidth rowHeight pixWidth pixHeight : Nat) (modes : List (Nat × Nat)) :
    Connection × List Effect :=
  ({ conn with
      auditLog :=
        AuditLog.pushAction conn.auditLog
          (AuditLogAction.ptyRequest term colWidth rowHeight pixWidth pixHeight
            modes) },
   [Effect.channelFailure])

/-- Rust `x11_request` (`server.rs` lines 387–409): push an `X11Request` action,
answer `channel_failure`. -/
def x11Request (conn : Connection) (singleConnection : Bool)
    (x11AuthProtocol x11AuthCookie : String) (x11ScreenNumber : Nat) :
    Connection × List Effect :=
  ({ conn with
      auditLog :=
        AuditLog.pushAction conn.auditLog
          (AuditLogAction.x11Request singleConnection x11AuthProtocol
            x11AuthCookie x11ScreenNumber) },
   [Effect.channelFailure])

/-- Rust `env_request` (`server.rs` lines 411–427): store the pair on the
record's `environment_variables` (not in the action list, and never applied
to a real process), answer `channel_success`. -/
def envRequest (conn : Connection) (variableName variableValue : String) :
    Connection × List Effect :=
  ({ conn with
      auditLog :=
        { conn.auditLog with
            environmentVariables :=
              conn.auditLog.environmentVariables
                ++ [(variableName, variableValue)] } },
   [Effect.channelSuccess])

/-- Rust `shell_request` (`server.rs` lines 429–439): push `ShellRequested`,
write the fixed shell prompt, answer `channel_success`.  Note: no call to
`run_command` appears in this handler. -/
def shellRequest (conn : Connection) : Connection × List Effect :=
  ({ conn with
      auditLog := AuditLog.pushAction conn.auditLog AuditLogAction.shellRequested },
   [Effect.dataOut SHELL_PROMPT, Effect.channelSuccess])

/-- Rust `exec_request` (`server.rs` lines 441–469).  `splitData` is the result
of `shlex::split` on the raw bytes (`None` when the text cannot be
shell-token-split).  On `Some args`: run the command emulator, push an
`ExecCommand` action with the args, answer `channel_success`.  On `None`:
answer `channel_failure` only. -/
def execRequest (conn : Connection) (splitData : Option (List String)) :
    Connection × List Effect :=
  match splitData with
  | some args =>
      ({ conn with
          auditLog :=
            AuditLog.pushAction conn.auditLog (AuditLogAction.execCommand args) },
       [Effect.runCommand args, Effect.channelSuccess])
  | none => (conn, [Effect.channelFailure])

/-- Rust `subsystem_request` (`server.rs` lines 471–487): push a
`SubsystemRequest` action, answer `channel_failure`. -/
def subsystemRequest (conn : Connection) (name : String) :
    Connection × List Effect :=
  ({ conn with
      auditLog :=
        AuditLog.pushAction conn.auditLog (AuditLogAction.subsystemRequest name) },
   [Effect.channelFailure])

/-- Rust `window_change_request` (`server.rs` lines 489–513): push a
`WindowChangeRequest` action, answer `channel_success`. -/
def windowChangeRequest (conn : Connection)
    (colWidth rowHeight pixWidth pixHeight : Nat) : Connection × List Effect :=
  ({ conn with
      auditLog :=
        AuditLog.pushAction conn.auditLog
          (AuditLogAction.windowChangeRequest colWidth rowHeight pixWidth
            pixHeight) },
   [Effect.channelSuccess])

/-- Rust `signal` (`server.rs` lines 515–530): push a `Signal` action with the
debug rendering of the signal name; the handler sends no channel response
at all (it goes straight to `finished`). -/
def signalRequest (conn : Connection) (signalName : String) :
    Connection × List Effect :=
  ({ conn with
      auditLog :=
        AuditLog.pushAction conn.auditLog (AuditLogAction.signalled signalName) },
   ([] : List Effect))

/-- Rust `tcpip_forward` (`server.rs` lines 532–545): push a `TcpIpForward`
action, reply `false` via `finished_bool`. -/
def tcpipForward (conn : Connection) (address : String) (port : Nat) :
    Connection × List Effect :=
  ({ conn with
      auditLog :=
        AuditLog.pushAction conn.auditLog
          (AuditLogAction.tcpIpForward address port) },
   [Effect.replyBool false])

/-- Rust `cancel_tcpip_forward` (`server.rs` lines 547–565): push a
`CancelTcpIpForward` action, reply `false` via `finished_bool`. -/
def cancelTcpipForward (conn : Connection) (address : String) (port : Nat) :
    Connection × List Effect :=
  ({ conn with
      auditLog :=
        AuditLog.pushAction conn.auditLog
          (AuditLogAction.cancelTcpIpForward address port) },
   [Effect.replyBool false])

/-- Rust `impl Drop for Connection` (`server.rs` lines 568–580), the single
finalization path, run whether the connection closes normally or abruptly:
`std::mem::take(&mut self.audit_log)` swaps `AuditLog::default()` into the
connection and sends the taken record on `audit_send` (the pipeline queue,
modelled as the list of enqueued records). -/
def dropConnection (conn : Connection) (queue : List AuditLog) :
    Connection × List AuditLog :=
  ({ conn with auditLog := AuditLog.default }, queue ++ [conn.auditLog])

/-- One password-authentication attempt, possibly from a distinct
connection: the sample drawn for it, the connection it arrives on, and the
submitted username and password. -/
structure Attempt where
  sample : ℚ
  conn : Connection
  user : String
  password : String
deriving DecidableEq, Repr

instance : Inhabited Attempt := ⟨⟨0, default, "", ""⟩⟩

/-- Run a sequence of `try_login` attempts against the shared credential
store, threading the store through and collecting each decision.  Each
attempt carries its own connection, modelling concurrent connections that
share only the store. -/
def runAttempts (accessProbability : ℚ) (state : State) :
    List Attempt → List Bool
  | [] => []
  | a :: rest =>
      let r := tryLogin state accessProbability a.sample a.conn a.user a.password
      r.1 :: runAttempts accessProbability r.2.1 rest

instance {ε α : Type} [DecidableEq ε] [DecidableEq α] : DecidableEq (Except ε α) :=
  fun a b =>
    match a, b with
    | Except.error e, Except.error f => decidable_of_iff (e = f) (by simp)
    | Except.error _, Except.ok _ => isFalse (fun h => Except.noConfusion h)
    | Except.ok _, Except.error _ => isFalse (fun h => Except.noConfusion h)
    | Except.ok x, Except.ok y => decidable_of_iff (x = y) (by simp)

/-- The result the audit-writer task completes with: the outer `Except` is
the tokio `JoinHandle` outcome, the inner one the writer's own
`anyhow::Result`. -/
abbrev DrainResult := Except String (Except String Unit)

/-- Which branch of the `tokio::select!` in `run` (`main.rs` lines 58–64)
resolves first: the server accept loop (with its result), the fused audit
handle, or ctrl-c. -/
inductive SelectBranch
  | serverResolved (res : Except String Unit)
  | pipelineResolved
  | ctrlC
deriving DecidableEq, Repr

/-- Observable process-level events of `run` after the select resolves. -/
inductive RunEvent
  | drainCompleted (res : DrainResult)
  | exited (res : Except String Unit)
  | hang
deriving DecidableEq, Repr

/-- Rust `run` (`main.rs` lines 58–70) after the `select!` resolves, as the
ordered list of observable events.  `drain` is the outcome the audit-writer
task completes with once all senders are dropped.

* accept loop resolves with an error: `res?` propagates it out of `run`
  before `audit_handle.await` is reached — the process exits without
  observing the drain;
* accept loop resolves cleanly: `audit_handle.await??` observes the drain,
  then `run` returns its result;
* audit handle resolves first: its completion is itself the drain report;
  `res??` propagates an error, while on success the second
  `audit_handle.await` polls an already-terminated `Fuse`, which returns
  `Pending` forever — the process hangs and never exits;
* ctrl-c: fall through to `audit_handle.await??`, observing the drain, and
  return `Ok(())` when the drain succeeded. -/
def runMain (branch : SelectBranch) (drain : DrainResult) : List RunEvent :=
  match branch with
  | SelectBranch.serverResolved (Except.error e) => [RunEvent.exited (Except.error e)]
  | SelectBranch.serverResolved (Except.ok _) =>
      match drain with
      | Except.error e => [RunEvent.drainCompleted drain, RunEvent.exited (Except.error e)]
      | Except.ok (Except.error e) =>
          [RunEvent.drainCompleted drain, RunEvent.exited (Except.error e)]
      | Except.ok (Except.ok _) =>
          [RunEvent.drainCompleted drain, RunEvent.exited (Except.ok ())]
  | SelectBranch.pipelineResolved =>
      match drain with
      | Except.error e => [RunEvent.drainCompleted drain, RunEvent.exited (Except.error e)]
      | Except.ok (Except.error e) =>
          [RunEvent.drainCompleted drain, RunEvent.exited (Except.error e)]
      | Except.ok (Except.ok _) => [RunEvent.drainCompleted drain, RunEvent.hang]
  | SelectBranch.ctrlC =>
      match drain with
      | Except.error e => [RunEvent.drainCompleted drain, RunEvent.exited (Except.error e)]
      | Except.ok (Except.error e) =>
          [RunEvent.drainCompleted drain, RunEvent.exited (Except.error e)]
      | Except.ok (Except.ok _) =>
          [RunEvent.drainCompleted drain, RunEvent.exited (Except.ok ())]

/-- True when no `exited` event occurs before a `drainCompleted` event:
the process did not exit before the pipeline reported drain completion. -/
def drainedBeforeExit : List RunEvent → Bool
  | [] => true
  | RunEvent.drainCompleted _ :: _ => true
  | RunEvent.hang :: rest => drainedBeforeExit rest
  | RunEvent.exited _ :: _ => false

/-- A password already in the credential store is accepted by `try_login`
(the `seen` branch). -/
theorem tryLogin_seen_accept (s : State) (p r : ℚ) (c : Connection)
    (u pw : String) (h : State.seen s pw = true) :
    (tryLogin s p r c u pw).1 = true := by
  simp [tryLogin, h]

/-- Whenever `try_login` accepts, the password is in the credential store
afterwards: either it was already there, or the random branch stored it
before returning. -/
theorem tryLogin_accept_seen (s : State) (p r : ℚ) (c : Connection)
    (u pw : String) (h : (tryLogin s p r c u pw).1 = true) :
    State.seen (tryLogin s p r c u pw).2.1 pw = true := by
  cases hs : State.seen s pw with
  | true => simp [tryLogin, hs]
  | false =>
      by_cases hr : r ≤ p
      · have h2 : State.seen (State.storePassword s pw) pw = true := by
          simp [State.seen, State.storePassword]
        simpa [tryLogin, hs, hr] using h2
      · simp [tryLogin, hs, hr] at h

/-- The credential store only grows across a `try_login` call: any password
seen before the call is still seen after it. -/
theorem tryLogin_seen_mono (s : State) (p r : ℚ) (c : Connection)
    (u pw q : String) (h : State.seen s q = true) :
    State.seen (tryLogin s p r c u pw).2.1 q = true := by
  cases hs : State.seen s pw with
  | true => simpa [tryLogin, hs]
  | false =>
      by_cases hr : r ≤ p
      · have hq : q ∈ s.previouslyAcceptedPasswords := by
          simpa [State.seen] using h
        have h2 : State.seen (State.storePassword s pw) q = true := by
          simp [State.seen, State.storePassword, hq]
        simpa [tryLogin, hs, hr] using h2
      · simpa [tryLogin, hs, hr]

/-- Once the store contains `pw`, every attempt with password `pw` in any
subsequent attempt sequence is accepted. -/
theorem runAttempts_seen (p : ℚ) (pw : String) (attempts : List Attempt)
    (s : State) (j : ℕ) (hseen : State.seen s pw = true)
    (hj : j < attempts.length) (hpw : (attempts.getD j default).password = pw) :
    (runAttempts p s attempts).getD j false = true := by
  induction attempts generalizing s j with
  | nil => simp at hj
  | cons a rest ih =>
      cases j with
      | zero =>
          have ha : a.password = pw := by simpa using hpw
          simpa [runAttempts] using tryLogin_seen_accept s p a.sample a.conn a.user a.password (ha ▸ hseen)
      | succ j2 =>
          have hj2 : j2 < rest.length := by simpa using hj
          have hpw2 : (rest.getD j2 default).password = pw := by simpa using hpw
          have hseen2 : State.seen (tryLogin s p a.sample a.conn a.user a.password).2.1 pw = true :=
            tryLogin_seen_mono s p a.sample a.conn a.user a.password pw hseen
          simpa [runAttempts] using ih (tryLogin s p a.sample a.conn a.user a.password).2.1 j2 hseen2 hj2 hpw2

/-- C2: replay consistency.  For any access probability, any initial store,
and any sequence of password attempts (each possibly on a different
connection, with its own random sample): once the attempt at position `i`
with password `P` is accepted, every later attempt at position `j` with
exactly the password `P` is accepted, regardless of the probability and of
the samples drawn. -/
theorem try_login_replay_consistent (p : ℚ) (s : State)
    (attempts : List Attempt) (i j : ℕ) (hij : i < j)
    (hj : j < attempts.length)
    (hpw : (attempts.getD i default).password = (attempts.getD j default).password)
    (hacc : (runAttempts p s attempts).getD i false = true) :
    (runAttempts p s attempts).getD j false = true := by
  induction attempts generalizing s i j with
  | nil => simp at hj
  | cons a rest ih =>
      cases i with
      | zero =>
          cases j with
          | zero => omega
          | succ j2 =>
              have hacc0 : (tryLogin s p a.sample a.conn a.user a.password).1 = true := by
                simpa [runAttempts] using hacc
              have hseen : State.seen (tryLogin s p a.sample a.conn a.user a.password).2.1 a.password = true :=
                tryLogin_accept_seen s p a.sample a.conn a.user a.password hacc0
              have hj2 : j2 < rest.length := by simpa using hj
              have hpw2 : (rest.getD j2 default).password = a.password := by
                simpa using hpw.symm
              simpa [runAttempts] using
                runAttempts_seen p a.password rest
                  (tryLogin s p a.sample a.conn a.user a.password).2.1 j2 hseen hj2 hpw2
      | succ i2 =>
          cases j with
          | zero => omega
          | succ j2 =>
              have hij2 : i2 < j2 := by omega
              have hj2 : j2 < rest.length := by simpa using hj
              have hpw2 : (rest.getD i2 default).password = (rest.getD j2 default).password := by
                simpa using hpw
              have hacc2 : (runAttempts p (tryLogin s p a.sample a.conn a.user a.password).2.1 rest).getD i2 false = true := by
                simpa [runAttempts] using hacc
              simpa [runAttempts] using
                ih (tryLogin s p a.sample a.conn a.user a.password).2.1 i2 j2 hij2 hj2 hpw2 hacc2

/-- C2 witness: the password "pw" is accepted on one connection at position
0 (probability 1), and the attempt with "pw" at position 1 is then
accepted. -/
theorem try_login_replay_consistent_witness :
    (runAttempts 1 ⟨[]⟩ [⟨0, default, "u", "pw"⟩, ⟨mkRat 3 4, default, "u2", "pw"⟩]).getD 0 false = true
    ∧ (runAttempts 1 ⟨[]⟩ [⟨0, default, "u", "pw"⟩, ⟨mkRat 3 4, default, "u2", "pw"⟩]).getD 1 false = true :=
  ⟨by decide,
   try_login_replay_consistent 1 ⟨[]⟩
     [⟨0, default, "u", "pw"⟩, ⟨mkRat 3 4, default, "u2", "pw"⟩] 0 1
     (by decide) (by decide) (by decide) (by decide)⟩

/-- C1: the single finalization path (the `Drop` impl) enqueues the
connection's audit record into the pipeline exactly once, and finalization
is idempotent: because `std::mem::take` leaves `AuditLog::default()` behind,
a second finalization of the same connection does not enqueue the record's
contents a second time — the count of the record in the queue stays at one
more than before (as long as the record is distinguishable from the default
record, which a real record is: its connection id is a fresh random
uuid). -/
theorem drop_connection_enqueues_exactly_once (c : Connection)
    (q : List AuditLog) (h : c.auditLog ≠ AuditLog.default) :
    ((dropConnection c q).2.count c.auditLog = q.count c.auditLog + 1)
    ∧ ((dropConnection (dropConnection c q).1 (dropConnection c q).2).2.count c.auditLog
        = q.count c.auditLog + 1) := by
  constructor
  · simp [dropConnection, List.count_append]
  · simp [dropConnection, List.count_append, List.count_cons, List.count_nil, h]

/-- C1 witness: a connection whose record carries connection id 1 (hence is
not the default record), finalized twice against an empty queue. -/
theorem drop_connection_enqueues_exactly_once_witness :
    (Connection.mk ⟨1, none, [], []⟩).auditLog ≠ AuditLog.default
    ∧ (((dropConnection (Connection.mk ⟨1, none, [], []⟩) []).2.count
          (Connection.mk ⟨1, none, [], []⟩).auditLog
        = List.count (Connection.mk ⟨1, none, [], []⟩).auditLog [] + 1)
       ∧ ((dropConnection (dropConnection (Connection.mk ⟨1, none, [], []⟩) []).1
            (dropConnection (Connection.mk ⟨1, none, [], []⟩) []).2).2.count
              (Connection.mk ⟨1, none, [], []⟩).auditLog
          = List.count (Connection.mk ⟨1, none, [], []⟩).auditLog [] + 1)) :=
  ⟨by decide,
   drop_connection_enqueues_exactly_once (Connection.mk ⟨1, none, [], []⟩) [] (by decide)⟩

/-- C3 counterexample: with `access_probability = 0` and the never-seen
password "hunter2", the random sample 0 — a value `fastrand::f64()` can
draw, since its range is the half-open interval [0,1) — is accepted,
because the code compares with `<=` (`fastrand::f64() <=
self.server.config.access_probability`).  So the decision is not false for
every possible sample. -/
theorem try_login_zero_probability_cex :
    State.seen ⟨[]⟩ "hunter2" = false
    ∧ (tryLogin ⟨[]⟩ 0 0 ⟨AuditLog.default⟩ "root" "hunter2").1 = true := by
  decide

/-- C3 amended: with `access_probability = 0`, a never-previously-accepted
password is rejected for every strictly positive random sample (only the
measure-zero draw of exactly 0 is accepted, by the `<=` comparison); with
`access_probability = 1`, the decision is true on the first attempt for
every password and every sample in the [0,1) range of `fastrand::f64()`. -/
theorem try_login_probability_extremes (s s2 : State) (c c2 : Connection)
    (u u2 pw pw2 : String) (r r2 : ℚ) (hseen : State.seen s pw = false)
    (hrpos : 0 < r) (hr2 : r2 < 1) :
    (tryLogin s 0 r c u pw).1 = false
    ∧ (tryLogin s2 1 r2 c2 u2 pw2).1 = true := by
  constructor
  · have hnr : ¬(r ≤ 0) := not_le.mpr hrpos
    simp [tryLogin, hseen, hnr]
  · cases hs : State.seen s2 pw2 with
    | true => simp [tryLogin, hs]
    | false => simp [tryLogin, hs, le_of_lt hr2]

/-- C3 amended witness: probability 0 rejects the unseen password "pw" at
sample 1/2; probability 1 accepts the unseen password "pw2" at sample 0. -/
theorem try_login_probability_extremes_witness :
    State.seen ⟨[]⟩ "pw" = false ∧ (0 : ℚ) < mkRat 1 2 ∧ (0 : ℚ) < 1
    ∧ ((tryLogin ⟨[]⟩ 0 (mkRat 1 2) ⟨AuditLog.default⟩ "root" "pw").1 = false
       ∧ (tryLogin ⟨[]⟩ 1 0 ⟨AuditLog.default⟩ "admin" "pw2").1 = true) :=
  ⟨by decide, by decide, by decide,
   try_login_probability_extremes ⟨[]⟩ ⟨[]⟩ ⟨AuditLog.default⟩ ⟨AuditLog.default⟩
     "root" "admin" "pw" "pw2" (mkRat 1 2) 0 (by decide) (by decide) (by decide)⟩

/-- C4 counterexample: a plain session channel open is accepted but records
no action at all — the action list stays empty — refuting that the
attempted parameters are recorded as an action for every kind of channel
open. -/
theorem channel_open_session_records_no_action_cex :
    (channelOpenSession ⟨AuditLog.default⟩).1.auditLog.actions = []
    ∧ (channelOpenSession ⟨AuditLog.default⟩).2 = [Effect.channelSuccess] := by
  decide

/-- C4 amended: a plain interactive session channel open is accepted with
channel success (recording no action); X11 and direct-tcpip channel opens
are rejected with channel failure and record, respectively, an `OpenX11`
action with the originator address and port and an `OpenDirectTcpIp` action
with the target host, target port, originator address and originator
port. -/
theorem channel_open_disposition (c : Connection) (host : String)
    (port : Nat) (oaddr : String) (oport : Nat) :
    channelOpenSession c = (c, [Effect.channelSuccess])
    ∧ (channelOpenX11 c oaddr oport).2 = [Effect.channelFailure]
    ∧ (channelOpenX11 c oaddr oport).1.auditLog.actions
        = c.auditLog.actions ++ [AuditLogAction.openX11 oaddr oport]
    ∧ (channelOpenDirectTcpIp c host port oaddr oport).2 = [Effect.channelFailure]
    ∧ (channelOpenDirectTcpIp c host port oaddr oport).1.auditLog.actions
        = c.auditLog.actions
            ++ [AuditLogAction.openDirectTcpIp host port oaddr oport] := by
  refine ⟨rfl, rfl, ?_, rfl, ?_⟩
  · simp [channelOpenX11, AuditLog.pushAction]
  · simp [channelOpenDirectTcpIp, AuditLog.pushAction]

/-- C5 counterexample: the `signal` handler records the action but sends no
channel response at all — its effect list is empty, so in particular it
does not respond with success as the claim states. -/
theorem signal_request_no_response_cex :
    (signalRequest ⟨AuditLog.default⟩ "HUP").2 = ([] : List Effect)
    ∧ (signalRequest ⟨AuditLog.default⟩ "HUP").1.auditLog.actions
        = [AuditLogAction.signalled "HUP"] := by
  decide

/-- C5 amended: every channel-level request handler records its structured
action on the AuditRecord before responding; the response is channel
success for env and window-change requests, channel failure for pty, x11
and subsystem requests, a `false` reply for tcpip-forward and
cancel-tcpip-forward requests, and the signal handler records its action
but sends no channel response.  Environment variables are stored in the
record's environment-variable list rather than the action list (and are
never applied to a real process). -/
theorem channel_request_disposition (c : Connection)
    (term vname vvalue addr sname subname : String)
    (colWidth rowHeight pixWidth pixHeight port screen : Nat)
    (modes : List (Nat × Nat)) (single : Bool) (proto cookie : String) :
    ((ptyRequest c term colWidth rowHeight pixWidth pixHeight modes).1.auditLog.actions
        = c.auditLog.actions
            ++ [AuditLogAction.ptyRequest term colWidth rowHeight pixWidth pixHeight modes]
      ∧ (ptyRequest c term colWidth rowHeight pixWidth pixHeight modes).2
          = [Effect.channelFailure])
    ∧ ((x11Request c single proto cookie screen).1.auditLog.actions
        = c.auditLog.actions
            ++ [AuditLogAction.x11Request single proto cookie screen]
      ∧ (x11Request c single proto cookie screen).2 = [Effect.channelFailure])
    ∧ ((envRequest c vname vvalue).1.auditLog.environmentVariables
        = c.auditLog.environmentVariables ++ [(vname, vvalue)]
      ∧ (envRequest c vname vvalue).1.auditLog.actions = c.auditLog.actions
      ∧ (envRequest c vname vvalue).2 = [Effect.channelSuccess])
    ∧ ((subsystemRequest c subname).1.auditLog.actions
        = c.auditLog.actions ++ [AuditLogAction.subsystemRequest subname]
      ∧ (subsystemRequest c subname).2 = [Effect.channelFailure])
    ∧ ((windowChangeRequest c colWidth rowHeight pixWidth pixHeight).1.auditLog.actions
        = c.auditLog.actions
            ++ [AuditLogAction.windowChangeRequest colWidth rowHeight pixWidth pixHeight]
      ∧ (windowChangeRequest c colWidth rowHeight pixWidth pixHeight).2
          = [Effect.channelSuccess])
    ∧ ((signalRequest c sname).1.auditLog.actions
        = c.auditLog.actions ++ [AuditLogAction.signalled sname]
      ∧ (signalRequest c sname).2 = ([] : List Effect))
    ∧ ((tcpipForward c addr port).1.auditLog.actions
        = c.auditLog.actions ++ [AuditLogAction.tcpIpForward addr port]
      ∧ (tcpipForward c addr port).2 = [Effect.replyBool false])
    ∧ ((cancelTcpipForward c addr port).1.auditLog.actions
        = c.auditLog.actions ++ [AuditLogAction.cancelTcpIpForward addr port]
      ∧ (cancelTcpipForward c addr port).2 = [Effect.replyBool false]) := by
  simp [ptyRequest, x11Request, envRequest, subsystemRequest,
    windowChangeRequest, signalRequest, tcpipForward, cancelTcpipForward,
    AuditLog.pushAction]

/-- C6: every password authentication appends a
`LoginAttempt{UsernamePassword}` action with the submitted username and
password to the audit record, whatever the decision; the decision handed to
the engine is `Accept` exactly when the credential policy (`try_login`)
accepts, and otherwise `Partial` with the secondary keyboard-interactive
prompt — never a rejection or termination.  The handler keeps no attempt
counter anywhere in the state, so nothing limits the number of retries. -/
theorem auth_password_logs_and_decides (s : State) (p r : ℚ)
    (c : Connection) (u pw : String) :
    ((authPassword s p r c u pw).2.2.auditLog.actions
        = c.auditLog.actions ++ [AuditLogAction.loginAttemptPassword u pw])
    ∧ ((authPassword s p r c u pw).1
        = if (tryLogin s p r c u pw).1 then Auth.accept
          else Auth.partialAuth "" "" KEYBOARD_INTERACTIVE_PROMPT)
    ∧ ((authPassword s p r c u pw).1 = Auth.accept
        ∨ (authPassword s p r c u pw).1
            = Auth.partialAuth "" "" KEYBOARD_INTERACTIVE_PROMPT) := by
  refine ⟨?_, rfl, ?_⟩
  · simp [authPassword, tryLogin, AuditLog.pushAction]
  · cases hb : (tryLogin s p r c u pw).1 with
    | true => left; simp [authPassword, hb]
    | false => right; simp [authPassword, hb]

/-- C7: an exec request whose argument bytes shell-token-split into `args`
invokes the command emulator with exactly `args`, records an `ExecCommand`
action with exactly `args`, answers channel success, and leaves the
session open; an exec request whose argument text is unparsable answers
channel failure, does not invoke the emulator, and records nothing. -/
theorem exec_request_spec (c : Connection) (args : List String) :
    ((execRequest c (some args)).1.auditLog.actions
        = c.auditLog.actions ++ [AuditLogAction.execCommand args])
    ∧ (execRequest c (some args)).2 = [Effect.runCommand args, Effect.channelSuccess]
    ∧ disconnects (execRequest c (some args)).2 = false
    ∧ execRequest c none = (c, [Effect.channelFailure])
    ∧ invokesEmulator (execRequest c none).2 = false := by
  refine ⟨?_, rfl, ?_, rfl, ?_⟩
  · simp [execRequest, AuditLog.pushAction]
  · simp [execRequest, disconnects]
  · simp [execRequest, invokesEmulator]

/-- C8 counterexample: the shell request handler never invokes the command
emulator — `shell_request` contains no `run_command` call; it only records
the action, writes the fixed prompt and answers success — refuting the
claim that the emulator is invoked with empty/absent args and its output
awaited. -/
theorem shell_request_no_emulator_cex :
    invokesEmulator (shellRequest ⟨AuditLog.default⟩).2 = false
    ∧ (shellRequest ⟨AuditLog.default⟩).2
        = [Effect.dataOut SHELL_PROMPT, Effect.channelSuccess] := by
  decide

/-- C8 amended: every shell request records a `ShellRequested` action,
writes the fixed shell prompt to the channel and answers channel success;
the command emulator is not invoked by this handler (`run_command` is only
reached from `exec_request` and `data`), and the session stays open. -/
theorem shell_request_spec (c : Connection) :
    ((shellRequest c).1.auditLog.actions
        = c.auditLog.actions ++ [AuditLogAction.shellRequested])
    ∧ (shellRequest c).2 = [Effect.dataOut SHELL_PROMPT, Effect.channelSuccess]
    ∧ invokesEmulator (shellRequest c).2 = false
    ∧ disconnects (shellRequest c).2 = false := by
  refine ⟨?_, rfl, ?_, ?_⟩
  · simp [shellRequest, AuditLog.pushAction]
  · simp [shellRequest, invokesEmulator, SHELL_PROMPT]
  · simp [shellRequest, disconnects, SHELL_PROMPT]

/-- C9: keyboard-interactive authentication returns `Reject` for every
input — any user, any submethods, any response (including one carrying a
password submitted at the secondary prompt) — and leaves the connection's
audit record untouched: such a password is never accepted and never
logged. -/
theorem auth_keyboard_interactive_rejects (c : Connection)
    (user submethods : String) (response : Option (List String)) :
    authKeyboardInteractive c user submethods response = (Auth.reject, c) :=
  rfl

/-- C10 counterexample: when the accept loop resolves first with an error,
`res?` propagates it out of `run` before `audit_handle.await` is reached:
the process exits carrying the error without ever observing drain
completion — refuting that after accept-loop termination the process does
not exit until the pipeline has drained and reported completion. -/
theorem run_exits_without_drain_cex :
    runMain (SelectBranch.serverResolved (Except.error "accept loop failed"))
        (Except.ok (Except.ok ()))
      = [RunEvent.exited (Except.error "accept loop failed")]
    ∧ drainedBeforeExit
        (runMain (SelectBranch.serverResolved (Except.error "accept loop failed"))
          (Except.ok (Except.ok ()))) = false :=
  ⟨rfl, rfl⟩

/-- C10 amended: unless the accept loop is the first to resolve and
resolves with an error (in which case `res?` exits `run` immediately,
skipping the drain), the process exits only after the audit pipeline's
drain completion has been observed; and an interrupt followed by a
successful drain yields exactly drain completion followed by a clean
(`Ok`) exit. -/
theorem run_drains_before_exit (branch : SelectBranch) (drain : DrainResult)
    (h : ∀ e, branch ≠ SelectBranch.serverResolved (Except.error e)) :
    drainedBeforeExit (runMain branch drain) = true
    ∧ (branch = SelectBranch.ctrlC → drain = Except.ok (Except.ok ()) →
        runMain branch drain
          = [RunEvent.drainCompleted drain, RunEvent.exited (Except.ok ())]) := by
  constructor
  · rcases branch with res | _ | _
    · rcases res with e | u
      · exact absurd rfl (h e)
      · rcases drain with e | ie
        · rfl
        · rcases ie with e | u2 <;> rfl
    · rcases drain with e | ie
      · rfl
      · rcases ie with e | u2 <;> rfl
    · rcases drain with e | ie
      · rfl
      · rcases ie with e | u2 <;> rfl
  · intro hb hd
    subst hb
    subst hd
    rfl

/-- C10 witness: the interrupt branch with a successful drain — the trace
is drain completion followed by a clean exit, and no exit precedes drain
completion. -/
theorem run_drains_before_exit_witness :
    drainedBeforeExit (runMain SelectBranch.ctrlC (Except.ok (Except.ok ()))) = true
    ∧ runMain SelectBranch.ctrlC (Except.ok (Except.ok ()))
        = [RunEvent.drainCompleted (Except.ok (Except.ok ())),
           RunEvent.exited (Except.ok ())] := by
  have h := run_drains_before_exit SelectBranch.ctrlC (Except.ok (Except.ok ()))
    (fun e he => SelectBranch.noConfusion he)
  exact ⟨h.1, h.2 rfl rfl⟩

end Pisshoff
